import Mathlib

/-!
Verification of the client-side contract of the Tavily tutorial notebook
(`tutorials/agent-with-tavily-web-access/search-extract-crawl.ipynb`).

The notebook itself is sequential glue code around the `TavilyClient`
wrapper of the `tavily-python` package, which talks over HTTPS to the
hosted Tavily service.  The wrapper and the remote service are not part of
the repository sources, so they are modelled here from the specification:
each operation (search / extract / crawl / map) issues exactly one outbound
HTTPS call, serializes a request, and deserializes the JSON response into
plain records; the limit behaviour (`max_results`, the 20-URL extract
limit, URL-only map results, domain-nested crawl results, propagation of
remote failures) follows the documented remote contract.  The notebook's
own cells (the API-key setup cell and the search → extract sequence) are
embedded from the source.
-/

namespace TavilySpec

/-- URLs are plain strings in the notebook and in the JSON payloads. -/
abbrev Url := String

/-- Remote-side failure kinds the hosted service can surface
(authentication failure, invalid parameters, rate limiting, network
failure). -/
inductive RemoteFailure where
  | authenticationFailure
  | invalidParameters
  | rateLimited
  | networkFailure
deriving DecidableEq

/-- Error with which a client operation fails: either the remote side
rejected an over-limit extract request, or a remote failure was surfaced
verbatim. -/
inductive RequestError where
  | tooManyUrls
  | remote (f : RemoteFailure)
deriving DecidableEq

/-- One outbound HTTPS call, identified by the endpoint it targets. -/
inductive HttpsCall where
  | searchCall
  | extractCall
  | crawlCall
  | mapCall
deriving DecidableEq

/-- Parameter record of a `search` invocation, mirroring the keyword
arguments used in the notebook. -/
structure SearchRequest where
  query : String
  max_results : Nat
  time_range : Option String := none
  include_domains : List String := []
  topic : Option String := none
  include_raw_content : Bool := false

/-- Parameter record of an `extract` invocation. -/
structure ExtractRequest where
  urls : List Url
  extract_depth : Option String := none

/-- Parameter record of a `crawl` or `map` invocation. -/
structure CrawlRequest where
  url : Url
  instructions : Option String := none

/-- A JSON result object as the notebook consumes it: a dictionary whose
fields may or may not be present.  Search results carry title, url,
content snippet, score and (optionally) raw content; extract and crawl
results carry url and raw content. -/
structure ResultRecord where
  title : Option String := none
  url : Option Url := none
  content : Option String := none
  score : Option Nat := none
  raw_content : Option String := none
deriving DecidableEq

/-- A deserialized JSON response body holding a list of result records,
as accessed via the key "results" in the notebook. -/
structure ApiResponse where
  results : List ResultRecord
deriving DecidableEq

/-- A deserialized `map` response: an ordered sequence of discovered URLs
only, with no content attached to any element. -/
structure MapResponse where
  results : List Url
deriving DecidableEq

/-- A ranked page as the remote search index produces it. -/
structure RankedPage where
  title : String
  url : Url
  snippet : String
  score : Nat

/-- Modelled from the spec: the hosted Tavily service, an opaque
collaborator reached over HTTPS.  `rank` is its search index (a ranked
page list per request), `pageContent` its page-text retrieval, `links`
the hyperlinks its crawler discovers from a page, `followsInstruction`
its natural-language filtering of crawled links, and `failure` the
network/auth/validation failure it may surface on a call. -/
structure RemoteService where
  rank : SearchRequest → List RankedPage
  pageContent : Url → String
  links : Url → List Url
  followsInstruction : String → Url → Bool
  failure : Option RemoteFailure

/-- Failure of client construction when the API credential is missing. -/
inductive ClientError where
  | missingAPIKey
deriving DecidableEq

/-- The API client wrapper: holds the credential it was constructed
with. -/
structure TavilyClient where
  api_key : String
deriving DecidableEq

/-- Modelled from the spec: construction of the `TavilyClient`.  Given a
missing credential it fails deterministically; in every case it performs
no network call (the second component is the list of HTTPS calls issued,
always empty). -/
def TavilyClient.init (api_key : Option String) :
    Except ClientError TavilyClient × List HttpsCall :=
  match api_key with
  | none => (.error .missingAPIKey, [])
  | some k => (.ok ⟨k⟩, [])

/-- Conversion of a ranked page into the JSON record `search` returns:
title, url, content snippet and score are always present; raw content is
attached exactly when `include_raw_content` was requested. -/
def toSearchRecord (includeRaw : Bool) (remote : RemoteService)
    (p : RankedPage) : ResultRecord :=
  { title := some p.title
    url := some p.url
    content := some p.snippet
    score := some p.score
    raw_content := if includeRaw then some (remote.pageContent p.url) else none }

/-- Modelled from the spec: `search`.  One HTTPS call is issued; a remote
failure propagates verbatim as a `RequestError`; otherwise the remote
returns its ranked pages truncated to `max_results`, serialized as
result records. -/
def TavilyClient.search (_c : TavilyClient) (remote : RemoteService)
    (req : SearchRequest) :
    Except RequestError ApiResponse × List HttpsCall :=
  ( match remote.failure with
    | some f => .error (.remote f)
    | none =>
        .ok { results := ((remote.rank req).take req.max_results).map
                (toSearchRecord req.include_raw_content remote) }
  , [HttpsCall.searchCall] )

/-- Modelled from the spec: `extract`.  One HTTPS call is issued; a batch
of more than 20 URLs is rejected; a remote failure propagates verbatim;
otherwise each requested URL is returned with its raw page content. -/
def TavilyClient.extract (_c : TavilyClient) (remote : RemoteService)
    (req : ExtractRequest) :
    Except RequestError ApiResponse × List HttpsCall :=
  ( if 20 < req.urls.length then .error .tooManyUrls
    else
      match remote.failure with
      | some f => .error (.remote f)
      | none =>
          .ok { results := req.urls.map (fun u =>
                  { url := some u
                    raw_content := some (remote.pageContent u) }) }
  , [HttpsCall.extractCall] )

/-- `nestedUnder seed u` holds when `u` lies under the seed URL, i.e. the
seed is a prefix of `u` (compared on the underlying character lists). -/
def nestedUnder (seed u : Url) : Bool :=
  seed.data.isPrefixOf u.data

/-- Modelled from the spec: the URL sequence the remote crawler discovers
from a seed: the seed itself followed by the discovered links nested
under the seed's domain, optionally filtered by natural-language
instructions. -/
def discoveredUrls (remote : RemoteService) (seed : Url)
    (instructions : Option String) : List Url :=
  seed :: ((remote.links seed).filter (fun u =>
    nestedUnder seed u &&
      match instructions with
      | none => true
      | some ins => remote.followsInstruction ins u))

/-- Modelled from the spec: `crawl`.  One HTTPS call is issued; a remote
failure propagates verbatim; otherwise each discovered URL is returned
together with its raw page content. -/
def TavilyClient.crawl (_c : TavilyClient) (remote : RemoteService)
    (req : CrawlRequest) :
    Except RequestError ApiResponse × List HttpsCall :=
  ( match remote.failure with
    | some f => .error (.remote f)
    | none =>
        .ok { results := (discoveredUrls remote req.url req.instructions).map
                (fun u =>
                  { url := some u
                    raw_content := some (remote.pageContent u) }) }
  , [HttpsCall.crawlCall] )

/-- Modelled from the spec: `map`.  One HTTPS call is issued; a remote
failure propagates verbatim; otherwise the discovered URL sequence is
returned as bare URLs, with no content attached. -/
def TavilyClient.map (_c : TavilyClient) (remote : RemoteService)
    (req : CrawlRequest) :
    Except RequestError MapResponse × List HttpsCall :=
  ( match remote.failure with
    | some f => .error (.remote f)
    | none => .ok { results := discoveredUrls remote req.url req.instructions }
  , [HttpsCall.mapCall] )

/-- The process environment as the setup cell of the notebook sees it:
the single credential variable `TAVILY_API_KEY`. -/
structure Env where
  tavily_api_key : Option String
deriving DecidableEq

/-- Whether an attempted client construction produced a client. -/
def constructionSucceeds (r : Except ClientError TavilyClient) : Bool :=
  match r with
  | .ok _ => true
  | .error _ => false

/-- The setup cell of the notebook: if `TAVILY_API_KEY` is unset, prompt
the user for a key and store the entered string into the environment;
then construct the client from the (loaded or provided) value of the
variable.  Returns the updated environment together with the outcome of
construction and the HTTPS calls it issued. -/
def setupClient (env : Env) (promptInput : String) :
    Env × (Except ClientError TavilyClient × List HttpsCall) :=
  let envAfter : Env :=
    match env.tavily_api_key with
    | some _ => env
    | none => { tavily_api_key := some promptInput }
  (envAfter, TavilyClient.init envAfter.tavily_api_key)

/-- The second search cell of the notebook: the query with a time range,
domain filter and news topic, `max_results = 5`. -/
def notebookSearchRequest : SearchRequest :=
  { query := "Anthropic model release?"
    max_results := 5
    time_range := some "month"
    include_domains := ["techcrunch.com"]
    topic := some "news" }

/-- The notebook's second search invocation. -/
def notebookSearch (c : TavilyClient) (remote : RemoteService) :
    Except RequestError ApiResponse × List HttpsCall :=
  c.search remote notebookSearchRequest

/-- The extract cell of the notebook: it passes exactly the URL list of
the immediately preceding search's results.  If that search failed, the
notebook aborts before reaching the extract call (`none`). -/
def notebookExtract (c : TavilyClient) (remote : RemoteService) :
    Option (Except RequestError ApiResponse × List HttpsCall) :=
  match (notebookSearch c remote).1 with
  | .error _ => none
  | .ok resp =>
      some (c.extract remote { urls := resp.results.filterMap (fun r => r.url) })

/-! ### Concrete fixtures used by the witnesses -/

/-- A concrete healthy remote service: three ranked pages for every
query, constant page text, and links one level below the queried URL
plus one foreign link. -/
def demoRemote : RemoteService :=
  { rank := fun _ =>
      [ { title := "t1", url := "https://a.com/1", snippet := "s1", score := 9 }
      , { title := "t2", url := "https://a.com/2", snippet := "s2", score := 8 }
      , { title := "t3", url := "https://a.com/3", snippet := "s3", score := 7 } ]
    pageContent := fun _ => "page text"
    links := fun u => [u ++ "/a", u ++ "/b", "https://other.com/x"]
    followsInstruction := fun _ u => u.endsWith "/a"
    failure := none }

/-- The same remote service, but currently rate limiting every call. -/
def failingRemote : RemoteService :=
  { demoRemote with failure := some .rateLimited }

/-- A concrete client. -/
def demoClient : TavilyClient := ⟨"tvly-demo-key"⟩

/-- The response the healthy remote service yields for a plain search
with `max_results = 2`. -/
def demoSearchResp : ApiResponse :=
  { results :=
      [ { title := some "t1", url := some "https://a.com/1"
          content := some "s1", score := some 9, raw_content := none }
      , { title := some "t2", url := some "https://a.com/2"
          content := some "s2", score := some 8, raw_content := none } ] }

/-- The response the healthy remote service yields for a crawl of
`https://a.com`. -/
def demoCrawlResp : ApiResponse :=
  { results :=
      [ { url := some "https://a.com", raw_content := some "page text" }
      , { url := some "https://a.com/a", raw_content := some "page text" }
      , { url := some "https://a.com/b", raw_content := some "page text" } ] }

/-! ### Shared helper lemmas -/

/-- A list is a `isPrefixOf` of itself. -/
theorem isPrefixOf_self {α : Type} [DecidableEq α] (l : List α) :
    l.isPrefixOf l = true := by
  induction l with
  | nil => rfl
  | cons a l ih => simp [List.isPrefixOf, ih]

/-- `nestedUnder` is reflexive: every seed lies under itself. -/
theorem nestedUnder_self (u : Url) : nestedUnder u u = true :=
  isPrefixOf_self u.data

/-- A successful search returns at most `max_results` results (shared
helper). -/
theorem search_ok_length_le (c : TavilyClient) (remote : RemoteService)
    (req : SearchRequest) (resp : ApiResponse)
    (h : (c.search remote req).1 = .ok resp) :
    resp.results.length ≤ req.max_results := by
  unfold TavilyClient.search at h
  cases hf : remote.failure with
  | some f => rw [hf] at h; exact absurd h (by simp)
  | none =>
      rw [hf] at h
      simp only [Except.ok.injEq] at h
      subst h
      simp [List.length_take]

/-! ### Claims -/

/-- C1: for every invocation of `search` on which a result sequence is
returned, that sequence has length at most `max_results`. -/
theorem search_length_le_max_results (c : TavilyClient)
    (remote : RemoteService) (req : SearchRequest) (resp : ApiResponse)
    (h : (c.search remote req).1 = .ok resp) :
    resp.results.length ≤ req.max_results :=
  search_ok_length_le c remote req resp h

/-- C1 witness: a concrete search with `max_results = 2` over a remote
index holding three pages returns exactly two results. -/
theorem search_length_le_max_results_witness :
    (demoClient.search demoRemote { query := "q", max_results := 2 }).1 =
      .ok demoSearchResp ∧
    demoSearchResp.results.length ≤ 2 :=
  ⟨rfl,
   search_length_le_max_results demoClient demoRemote
     { query := "q", max_results := 2 } demoSearchResp rfl⟩

/-- C2: whenever `extract` is called with more than 20 URLs in a single
call, it fails with `tooManyUrls` rather than returning a result
sequence. -/
theorem extract_rejects_over_20 (c : TavilyClient) (remote : RemoteService)
    (req : ExtractRequest) (h : 20 < req.urls.length) :
    (c.extract remote req).1 = .error .tooManyUrls := by
  unfold TavilyClient.extract
  simp [h]

/-- C2 witness: a concrete extract call with 21 URLs fails. -/
theorem extract_rejects_over_20_witness :
    20 < (List.replicate 21 ("https://a.com/x" : Url)).length ∧
    (demoClient.extract demoRemote
        { urls := List.replicate 21 "https://a.com/x" }).1 =
      .error .tooManyUrls :=
  ⟨by decide,
   extract_rejects_over_20 demoClient demoRemote
     { urls := List.replicate 21 "https://a.com/x" } (by decide)⟩

/-- C3: `map` returns URLs only: its result (a bare URL sequence, with no
content field on any element) is exactly the URL projection of the
corresponding crawl result. -/
theorem map_returns_urls_only (c : TavilyClient) (remote : RemoteService)
    (req : CrawlRequest) :
    (c.map remote req).1 =
      ((c.crawl remote req).1).map (fun resp =>
        ({ results := resp.results.filterMap (fun r => r.url) } : MapResponse)) := by
  unfold TavilyClient.map TavilyClient.crawl
  cases remote.failure with
  | some f => rfl
  | none =>
      simp [Except.map, List.filterMap_map, Function.comp_def]

/-- C4: constructing the client with a missing credential fails
deterministically with `missingAPIKey`, and issues no network call. -/
theorem init_missing_key_fails :
    TavilyClient.init none = (.error .missingAPIKey, []) := rfl

/-- C5: whenever the remote side reports a failure, `search` fails with a
`RequestError` carrying that failure verbatim — the local code neither
classifies nor recovers, the failure propagates to the caller. -/
theorem search_propagates_remote_failure (c : TavilyClient)
    (remote : RemoteService) (req : SearchRequest) (f : RemoteFailure)
    (h : remote.failure = some f) :
    (c.search remote req).1 = .error (.remote f) := by
  unfold TavilyClient.search
  rw [h]

/-- C5 witness: against a rate-limiting remote, a concrete search fails
with the rate-limit failure wrapped unchanged. -/
theorem search_propagates_remote_failure_witness :
    failingRemote.failure = some .rateLimited ∧
    (demoClient.search failingRemote { query := "q", max_results := 5 }).1 =
      .error (.remote .rateLimited) :=
  ⟨rfl,
   search_propagates_remote_failure demoClient failingRemote
     { query := "q", max_results := 5 } .rateLimited rfl⟩

/-- Every URL the crawler discovers from a seed is nested under that seed
(shared helper). -/
theorem mem_discoveredUrls_nested (remote : RemoteService) (seed : Url)
    (ins : Option String) (u : Url)
    (hu : u ∈ discoveredUrls remote seed ins) :
    nestedUnder seed u = true := by
  unfold discoveredUrls at hu
  rcases List.mem_cons.mp hu with h | h
  · subst h; exact nestedUnder_self _
  · have hb := (List.mem_filter.mp h).2
    rw [Bool.and_eq_true] at hb
    exact hb.1

/-- The seed itself is among the discovered URLs (shared helper). -/
theorem seed_mem_discoveredUrls (remote : RemoteService) (seed : Url)
    (ins : Option String) : seed ∈ discoveredUrls remote seed ins :=
  List.mem_cons_self _ _

/-- C6: every logical operation issues exactly one outbound HTTPS call
per invocation, to its own endpoint — no retries, no extra calls, no
call elided by a cache. -/
theorem one_call_per_operation (c : TavilyClient) (remote : RemoteService)
    (sreq : SearchRequest) (ereq : ExtractRequest) (creq mreq : CrawlRequest) :
    (c.search remote sreq).2 = [HttpsCall.searchCall] ∧
    (c.extract remote ereq).2 = [HttpsCall.extractCall] ∧
    (c.crawl remote creq).2 = [HttpsCall.crawlCall] ∧
    (c.map remote mreq).2 = [HttpsCall.mapCall] :=
  ⟨rfl, rfl, rfl, rfl⟩

/-- C7: every successful crawl or map result sequence contains the seed
URL, and every element of it is nested under the seed's domain. -/
theorem crawl_map_cover_seed_domain (c : TavilyClient)
    (remote : RemoteService) (req : CrawlRequest) :
    (∀ resp, (c.crawl remote req).1 = .ok resp →
      some req.url ∈ resp.results.map (fun r => r.url) ∧
      ∀ r ∈ resp.results, ∃ u, r.url = some u ∧ nestedUnder req.url u = true) ∧
    (∀ mresp, (c.map remote req).1 = .ok mresp →
      req.url ∈ mresp.results ∧
      ∀ u ∈ mresp.results, nestedUnder req.url u = true) := by
  constructor
  · intro resp h
    unfold TavilyClient.crawl at h
    cases hf : remote.failure with
    | some f => rw [hf] at h; exact absurd h (by simp)
    | none =>
        rw [hf] at h
        simp only [Except.ok.injEq] at h
        subst h
        constructor
        · simp only [List.map_map]
          exact List.mem_map.mpr
            ⟨req.url, seed_mem_discoveredUrls remote req.url req.instructions, rfl⟩
        · intro r hr
          rcases List.mem_map.mp hr with ⟨u, hu, rfl⟩
          exact ⟨u, rfl, mem_discoveredUrls_nested remote req.url req.instructions u hu⟩
  · intro mresp h
    unfold TavilyClient.map at h
    cases hf : remote.failure with
    | some f => rw [hf] at h; exact absurd h (by simp)
    | none =>
        rw [hf] at h
        simp only [Except.ok.injEq] at h
        subst h
        exact ⟨seed_mem_discoveredUrls remote req.url req.instructions,
          fun u hu => mem_discoveredUrls_nested remote req.url req.instructions u hu⟩

/-- The map response the healthy remote service yields for a map of
`https://a.com`. -/
def demoMapResp : MapResponse :=
  { results := ["https://a.com", "https://a.com/a", "https://a.com/b"] }

/-- C7 witness: crawling and mapping `https://a.com` against the concrete
remote returns the seed plus the two nested links, all under the seed. -/
theorem crawl_map_cover_seed_domain_witness :
    ((demoClient.crawl demoRemote { url := "https://a.com" }).1 = .ok demoCrawlResp ∧
      (some "https://a.com" ∈ demoCrawlResp.results.map (fun r => r.url) ∧
        ∀ r ∈ demoCrawlResp.results, ∃ u, r.url = some u ∧
          nestedUnder "https://a.com" u = true)) ∧
    ((demoClient.map demoRemote { url := "https://a.com" }).1 = .ok demoMapResp ∧
      ("https://a.com" ∈ demoMapResp.results ∧
        ∀ u ∈ demoMapResp.results, nestedUnder "https://a.com" u = true)) :=
  ⟨⟨rfl, (crawl_map_cover_seed_domain demoClient demoRemote
      { url := "https://a.com" }).1 demoCrawlResp rfl⟩,
   ⟨rfl, (crawl_map_cover_seed_domain demoClient demoRemote
      { url := "https://a.com" }).2 demoMapResp rfl⟩⟩

/-- C8: when the credential variable is unset, the setup cell stores the
prompted string into the environment and constructs the client from it;
construction always proceeds, whatever string was supplied, and performs
no network call. -/
theorem setup_prompts_and_constructs (env : Env) (input : String) :
    constructionSucceeds (setupClient env input).2.1 = true ∧
    (setupClient env input).2.2 = [] ∧
    (env.tavily_api_key = none →
      (setupClient env input).1.tavily_api_key = some input ∧
      (setupClient env input).2.1 = .ok ⟨input⟩) := by
  cases h : env.tavily_api_key with
  | none => simp [setupClient, h, TavilyClient.init, constructionSucceeds]
  | some k => simp [setupClient, h, TavilyClient.init, constructionSucceeds]

/-- C8 witness: with the variable unset and a concrete prompted key, the
key is stored and the client is constructed from it with no call made. -/
theorem setup_prompts_and_constructs_witness :
    Env.tavily_api_key ⟨none⟩ = none ∧
    (setupClient ⟨none⟩ "tvly-key").1.tavily_api_key = some "tvly-key" ∧
    (setupClient ⟨none⟩ "tvly-key").2.1 = .ok ⟨"tvly-key"⟩ ∧
    (setupClient ⟨none⟩ "tvly-key").2.2 = [] :=
  ⟨rfl,
   ((setup_prompts_and_constructs ⟨none⟩ "tvly-key").2.2 rfl).1,
   ((setup_prompts_and_constructs ⟨none⟩ "tvly-key").2.2 rfl).2,
   (setup_prompts_and_constructs ⟨none⟩ "tvly-key").2.1⟩

/-- C9: the notebook's extract cell passes exactly the URL list of the
immediately preceding search's results; that list has length at most 5,
hence at most 20, so the over-limit failure branch of `extract` is
unreachable in this program. -/
theorem notebook_extract_within_limit (c : TavilyClient)
    (remote : RemoteService) (resp : ApiResponse)
    (h : (notebookSearch c remote).1 = .ok resp) :
    (resp.results.filterMap (fun r => r.url)).length ≤ 5 ∧
    (resp.results.filterMap (fun r => r.url)).length ≤ 20 ∧
    notebookExtract c remote =
      some (c.extract remote { urls := resp.results.filterMap (fun r => r.url) }) ∧
    (c.extract remote { urls := resp.results.filterMap (fun r => r.url) }).1 ≠
      .error .tooManyUrls := by
  have h5 : resp.results.length ≤ 5 :=
    search_ok_length_le c remote notebookSearchRequest resp h
  have hlen : (resp.results.filterMap (fun r => r.url)).length ≤ resp.results.length :=
    List.length_filterMap_le _ _
  refine ⟨le_trans hlen h5, le_trans (le_trans hlen h5) (by norm_num), ?_, ?_⟩
  · unfold notebookExtract
    rw [h]
  · have h20 : ¬ 20 < (resp.results.filterMap (fun r => r.url)).length := by omega
    simp only [TavilyClient.extract, if_neg h20]
    cases remote.failure <;> simp

/-- The response the healthy remote service yields for the notebook's
second search (`max_results = 5` over a three-page index). -/
def demoNotebookResp : ApiResponse :=
  { results :=
      [ { title := some "t1", url := some "https://a.com/1"
          content := some "s1", score := some 9, raw_content := none }
      , { title := some "t2", url := some "https://a.com/2"
          content := some "s2", score := some 8, raw_content := none }
      , { title := some "t3", url := some "https://a.com/3"
          content := some "s3", score := some 7, raw_content := none } ] }

/-- C9 witness: running the notebook's search → extract sequence against
the concrete remote passes 3 URLs to extract, within every limit. -/
theorem notebook_extract_within_limit_witness :
    (notebookSearch demoClient demoRemote).1 = .ok demoNotebookResp ∧
    (demoNotebookResp.results.filterMap (fun r => r.url)).length ≤ 5 ∧
    notebookExtract demoClient demoRemote =
      some (demoClient.extract demoRemote
        { urls := demoNotebookResp.results.filterMap (fun r => r.url) }) ∧
    (demoClient.extract demoRemote
        { urls := demoNotebookResp.results.filterMap (fun r => r.url) }).1 ≠
      .error .tooManyUrls :=
  ⟨rfl,
   (notebook_extract_within_limit demoClient demoRemote demoNotebookResp rfl).1,
   (notebook_extract_within_limit demoClient demoRemote demoNotebookResp rfl).2.2.1,
   (notebook_extract_within_limit demoClient demoRemote demoNotebookResp rfl).2.2.2⟩

/-- C10: every search result record carries title, url, content and
score, plus raw content when `include_raw_content` was requested; every
extract and crawl result record carries url and raw content — so the
unguarded field accesses of the notebook's print loops are defined. -/
theorem result_fields_present (c : TavilyClient) (remote : RemoteService) :
    (∀ req resp, (c.search remote req).1 = .ok resp →
      ∀ r ∈ resp.results,
        r.title.isSome = true ∧ r.url.isSome = true ∧ r.content.isSome = true ∧
        r.score.isSome = true ∧
        (req.include_raw_content = true → r.raw_content.isSome = true)) ∧
    (∀ req resp, (c.extract remote req).1 = .ok resp →
      ∀ r ∈ resp.results, r.url.isSome = true ∧ r.raw_content.isSome = true) ∧
    (∀ req resp, (c.crawl remote req).1 = .ok resp →
      ∀ r ∈ resp.results, r.url.isSome = true ∧ r.raw_content.isSome = true) := by
  refine ⟨?_, ?_, ?_⟩
  · intro req resp h r hr
    unfold TavilyClient.search at h
    cases hf : remote.failure with
    | some f => rw [hf] at h; exact absurd h (by simp)
    | none =>
        rw [hf] at h
        simp only [Except.ok.injEq] at h
        subst h
        rcases List.mem_map.mp hr with ⟨p, hp, rfl⟩
        exact ⟨rfl, rfl, rfl, rfl, fun hraw => by simp [toSearchRecord, hraw]⟩
  · intro req resp h r hr
    simp only [TavilyClient.extract] at h
    by_cases h20 : 20 < req.urls.length
    · rw [if_pos h20] at h; exact absurd h (by simp)
    · rw [if_neg h20] at h
      cases hf : remote.failure with
      | some f => rw [hf] at h; exact absurd h (by simp)
      | none =>
          rw [hf] at h
          simp only [Except.ok.injEq] at h
          subst h
          rcases List.mem_map.mp hr with ⟨u, hu, rfl⟩
          exact ⟨rfl, rfl⟩
  · intro req resp h r hr
    unfold TavilyClient.crawl at h
    cases hf : remote.failure with
    | some f => rw [hf] at h; exact absurd h (by simp)
    | none =>
        rw [hf] at h
        simp only [Except.ok.injEq] at h
        subst h
        rcases List.mem_map.mp hr with ⟨u, hu, rfl⟩
        exact ⟨rfl, rfl⟩

/-- The single-result response of a search with raw content requested. -/
def demoRawSearchResp : ApiResponse :=
  { results :=
      [ { title := some "t1", url := some "https://a.com/1"
          content := some "s1", score := some 9
          raw_content := some "page text" } ] }

/-- The response of extracting one concrete URL. -/
def demoExtractResp : ApiResponse :=
  { results := [ { url := some "https://a.com/1", raw_content := some "page text" } ] }

/-- C10 witness: concrete search (with raw content), extract and crawl
responses all carry the fields the notebook's print loops access. -/
theorem result_fields_present_witness :
    ((demoClient.search demoRemote
        { query := "q", max_results := 1, include_raw_content := true }).1 =
          .ok demoRawSearchResp ∧
      ∀ r ∈ demoRawSearchResp.results,
        r.title.isSome = true ∧ r.url.isSome = true ∧ r.content.isSome = true ∧
        r.score.isSome = true ∧
        (({ query := "q", max_results := 1, include_raw_content := true }
            : SearchRequest).include_raw_content = true →
          r.raw_content.isSome = true)) ∧
    ((demoClient.extract demoRemote { urls := ["https://a.com/1"] }).1 =
          .ok demoExtractResp ∧
      ∀ r ∈ demoExtractResp.results,
        r.url.isSome = true ∧ r.raw_content.isSome = true) ∧
    ((demoClient.crawl demoRemote { url := "https://a.com" }).1 = .ok demoCrawlResp ∧
      ∀ r ∈ demoCrawlResp.results,
        r.url.isSome = true ∧ r.raw_content.isSome = true) :=
  ⟨⟨rfl, (result_fields_present demoClient demoRemote).1
      { query := "q", max_results := 1, include_raw_content := true }
      demoRawSearchResp rfl⟩,
   ⟨rfl, (result_fields_present demoClient demoRemote).2.1
      { urls := ["https://a.com/1"] } demoExtractResp rfl⟩,
   ⟨rfl, (result_fields_present demoClient demoRemote).2.2
      { url := "https://a.com" } demoCrawlResp rfl⟩⟩

end TavilySpec
